import Mathlib

/-!
Verification development for the kubesql query-plan translator.

Shallow embedding of `src/planner.rs`, `src/parser.rs` and `src/validator.rs`.
The external SQL grammar (the `sqlparser` crate) and the cluster client are
collaborators: their output (the AST handed to the translator, the kubeconfig
context list) is modelled as input data to the embedded functions, exactly in
the shape the Rust code consumes it.
-/

namespace Kubesql

/-- `sqlparser::ast::BinaryOperator`, restricted to the operators a WHERE
tree of this grammar subset can carry.  The Rust code treats the operator as
an opaque value that is only cloned into the plan. -/
inductive BinaryOperator where
  | Eq
  | NotEq
  | Gt
  | Lt
  | GtEq
  | LtEq
  | And
  | Or
  deriving Repr, DecidableEq

/-- Rust `str::replace(c1, c2)` with a single-character pattern and a
single-character replacement string: every occurrence of `c1` becomes `c2`.
Embeds `sql.replace('-', "_")` (parser.rs line 96) and
`.replace('_', "-")` (parser.rs lines 126/184, planner.rs line 156). -/
def replaceChar (s : String) (c1 c2 : Char) : String :=
  String.mk (s.data.map (fun c => if c = c1 then c2 else c))

/-- `planner::Query` (planner.rs lines 23-31): one field-selector clause.
`key` is the chaining operator to the previous clause (`chainOp` in the
spec), `eq` the literal, `op` the comparator. -/
structure Query where
  key : Option BinaryOperator
  kind : String
  field1 : String
  field2 : String
  eq : String
  op : BinaryOperator
  deriving Repr, DecidableEq

/-- `planner::Value` (planner.rs lines 33-39): the tagged union of
intermediate folding results. -/
inductive Value where
  | Strings (l : List String)
  | String (s : String)
  | Query (q : Query)
  | Queries (l : List Query)
  deriving Repr, DecidableEq

/-- `planner::PlanError` (planner.rs lines 41-51). -/
inductive PlanError where
  | Unknown (msg : String)
  | Unsupported (what : String) (node : String)
  | TypeMismatch (l r : Value)
  deriving Repr, DecidableEq

/-- `sqlparser::ast::Value` — the literal kinds the planner inspects
(planner.rs lines 77-89).  Only single- and double-quoted strings are
accepted; the other variants (number, boolean, null) are rejected with
their `Display` rendering, which we carry as the stored text. -/
inductive AstValue where
  | SingleQuotedString (s : String)
  | DoubleQuotedString (s : String)
  | Number (s : String)
  | Boolean (b : Bool)
  | Null
  deriving Repr, DecidableEq

/-- The `Display` rendering of an `ast::Value`, as `self.to_string()`
produces it in the `Unsupported` error payload (planner.rs line 85). -/
def AstValue.render : AstValue → String
  | .SingleQuotedString s => "'" ++ s ++ "'"
  | .DoubleQuotedString s => "\"" ++ s ++ "\""
  | .Number s => s
  | .Boolean b => if b then "true" else "false"
  | .Null => "NULL"

/-- `sqlparser::ast::Expr`, restricted to the node kinds the planner
distinguishes (planner.rs lines 64-75): literal value, compound identifier
(the list of `Ident::value` segments), binary operation.  Every other node
kind falls into the catch-all arm, which only uses the node's `Display`
rendering; `Other s` stands for such a node rendered as `s`. -/
inductive Expr where
  | Value (v : AstValue)
  | CompoundIdentifier (identifiers : List String)
  | BinaryOp (left : Expr) (op : BinaryOperator) (right : Expr)
  | Other (rendered : String)
  deriving Repr, DecidableEq

/-- `impl PlanQuery for ast::Value` (planner.rs lines 77-89). -/
def planValue : AstValue → Except PlanError Value
  | .SingleQuotedString s => .ok (.String s)
  | .DoubleQuotedString s => .ok (.String s)
  | v => .error (.Unsupported "Value" v.render)

/-- The arity error message of `BinaryOpQuery::plan` (planner.rs line 148). -/
def arityMsg : String :=
  "WHERE statement does only support three length CompoundIdentifier: i.e. \x27pod.status.phase\x27"

/-- `impl PlanQuery for BinaryOpQuery` (planner.rs lines 145-160): requires
exactly three identifier segments, then builds the clause with `key = None`
and the literal's underscores rewritten to hyphens. -/
def binaryOpQueryPlan (op : BinaryOperator) (input : List String) (eq : String) :
    Except PlanError Value :=
  match input with
  | [a, b, c] =>
      .ok (.Query { key := none, kind := a, field1 := b, field2 := c
                    eq := replaceChar eq '_' '-', op := op })
  | _ => .error (.Unknown arityMsg)

/-- `impl PlanQuery for ast::Expr` together with
`impl PlanQuery for BinaryOp` (planner.rs lines 64-75 and 109-137).
`PlanContext` is an empty struct the Rust code threads through unused, so it
is omitted here. -/
def Expr.plan : Expr → Except PlanError Kubesql.Value
  | .Value v => planValue v
  | .CompoundIdentifier identifiers => .ok (.Strings identifiers)
  | .BinaryOp left op right =>
      match left.plan, right.plan with
      | .ok l, .ok r =>
          match l, r with
          | .Strings a, .String b => binaryOpQueryPlan op a b
          | .Query input, .Query eq => .ok (.Queries [input, { eq with key := some op }])
          | .Queries input, .Query eq => .ok (.Queries (input ++ [{ eq with key := some op }]))
          | x, y => .error (.TypeMismatch x y)
      | .error e, _ => .error e
      | .ok _, .error e => .error e
  | .Other rendered => .error (.Unsupported "Expr" rendered)

/-- The rendering of a `Value` used only inside the
"Unable to handle unsupported query plan" error payload
(parser.rs line 217); stands for Rust's derived `Debug` output,
the `format!` argument written there as a debug placeholder. -/
def debugRenderValue (v : Value) : String :=
  toString (repr v)

/-- `sqlparser::ast::SelectItem` as the projection loop distinguishes it
(parser.rs lines 123-145).  An `UnnamedExpr` is consumed only through
`o.to_string()`, so it carries that rendering; the rejected variants carry
nothing the code reads. -/
inductive SelectItem where
  | UnnamedExpr (rendered : String)
  | ExprWithAlias
  | QualifiedWildcard
  | Wildcard
  deriving Repr, DecidableEq

/-- `sqlparser::ast::TableFactor` as the FROM loop distinguishes it
(parser.rs lines 158-206).  A `Table` is consumed through `name.to_string()`
(carried as `name`), `alias.is_some()`, the optional `args` list and the
`with_hints` list; the elements of `args`/`with_hints` are never read. -/
inductive TableFactor where
  | Table (name : String) (alias_ : Option Unit) (args : Option (List Unit))
      (with_hints : List Unit)
  | Derived
  | TableFunction
  | NestedJoin
  | UNNEST
  deriving Repr, DecidableEq

/-- `sqlparser::ast::TableWithJoins`: a relation plus its join list
(only emptiness of `joins` is read, parser.rs line 153). -/
structure TableWithJoins where
  relation : TableFactor
  joins : List Unit
  deriving Repr, DecidableEq

/-- The fields of `sqlparser::ast::Select` that parser.rs reads:
`projection`, `from` (named `from_` here, `from` being reserved in Lean)
and `selection` (the WHERE expression). -/
structure Select where
  projection : List SelectItem
  from_ : List TableWithJoins
  selection : Option Expr
  deriving Repr, DecidableEq

/-- `sqlparser::ast::SetExpr` (parser.rs lines 116-235): a plain SELECT or
any other query body, the latter consumed only through its `{:?}` rendering
in the error message, carried here as `rendered`. -/
inductive SetExpr where
  | Select (s : Kubesql.Select)
  | OtherBody (rendered : String)
  deriving Repr, DecidableEq

/-- `sqlparser::ast::Statement` (parser.rs lines 101-108): a `Query`
statement (of which only the body is read) or anything else. -/
inductive Statement where
  | Query (body : SetExpr)
  | OtherStmt
  deriving Repr, DecidableEq

/-- `parser::ParserError` (parser.rs lines 31-49).  `KubeConfigError` wraps
an external error value, carried as its rendering. -/
inductive ParserError where
  | Unknown (msg : String)
  | Unsupported (msg : String)
  | KubeConfigError (err : String)
  | SelectProjectionsRequired
  | SelectFromRequired
  deriving Repr, DecidableEq

/-- `parser::ApiQueries` (parser.rs lines 51-56). -/
structure ApiQueries where
  namespaces : List String
  contexts : List String
  queries : List Query
  deriving Repr, DecidableEq

/-- The projection loop of `parse_sql` (parser.rs lines 123-145): each
`UnnamedExpr` is rendered with the underscore-to-hyphen rewrite and pushed;
the first aliased, qualified-wildcard or wildcard item aborts with its own
`Unsupported` error. -/
def selectNamespaces : List SelectItem → Except ParserError (List String)
  | [] => .ok []
  | .UnnamedExpr o :: rest =>
      match selectNamespaces rest with
      | .error e => .error e
      | .ok ns => .ok (replaceChar o '_' '-' :: ns)
  | .ExprWithAlias :: _ =>
      .error (.Unsupported "SELECT statement does not support ExprWithAlias selector!")
  | .QualifiedWildcard :: _ =>
      .error (.Unsupported "SELECT statement does not support QualifiedWildcard selector!")
  | .Wildcard :: _ =>
      .error (.Unsupported "SELECT statement does not support Wildcard selector!")

/-- The FROM loop of `parse_sql` (parser.rs lines 152-207): joins, aliases,
non-empty call-style argument lists, hints, and the non-`Table` relation
kinds are each rejected with their own `Unsupported` error; a plain table
name is rendered with the underscore-to-hyphen rewrite and pushed. -/
def fromContexts : List TableWithJoins → Except ParserError (List String)
  | [] => .ok []
  | f :: rest =>
      if f.joins ≠ [] then
        .error (.Unsupported "FROM statement does not support Join!")
      else
        match f.relation with
        | .Table name alias_ args with_hints =>
            if alias_.isSome then
              .error (.Unsupported "FROM statement does not support Table aliases!")
            else if (match args with | some a => decide (a ≠ []) | none => false) then
              .error (.Unsupported "FROM statement does not support Table ARGS!")
            else if with_hints ≠ [] then
              .error (.Unsupported "FROM statement does not support Table HINT!")
            else
              match fromContexts rest with
              | .error e => .error e
              | .ok cs => .ok (replaceChar name '_' '-' :: cs)
        | .Derived => .error (.Unsupported "FROM statement does not support Derived!")
        | .TableFunction => .error (.Unsupported "FROM statement does not support TableFunction!")
        | .NestedJoin => .error (.Unsupported "FROM statement does not support NestedJoin!")
        | .UNNEST => .error (.Unsupported "FROM statement does not support UNNEST!")

/-- `parse_sql` (parser.rs lines 91-238), modelled from the point where the
raw query text (with every hyphen already rewritten to an underscore,
parser.rs line 96) has been handed to the external grammar.  The argument is
the external parser's result: a parse error or the statement list.  The Rust
code calls `.unwrap()` on that result (line 99), on `ast.pop()` (line 101)
and on the WHERE fold (line 212); an `.unwrap()` on an error aborts the
process, which is modelled as `none`.  `some r` is a normal return. -/
def parse_sql (ast : Except String (List Statement)) :
    Option (Except ParserError ApiQueries) :=
  match ast with
  | .error _ => none
  | .ok stmts =>
      match stmts.getLast? with
      | none => none
      | some (.OtherStmt) =>
          some (.error (.Unsupported "Only QUERY statements are supported!"))
      | some (.Query body) =>
          match body with
          | .OtherBody rendered =>
              some (.error (.Unsupported ("An unsupported query body given: " ++ rendered)))
          | .Select s =>
              if s.projection = [] then
                some (.error .SelectProjectionsRequired)
              else
                match selectNamespaces s.projection with
                | .error e => some (.error e)
                | .ok namespaces =>
                    if s.from_ = [] then
                      some (.error .SelectFromRequired)
                    else
                      match fromContexts s.from_ with
                      | .error e => some (.error e)
                      | .ok contexts =>
                          match s.selection with
                          | none =>
                              some (.error (.Unsupported
                                "WHERE statement is required in order to set --field-selector!"))
                          | some w =>
                              match w.plan with
                              | .error _ => none
                              | .ok (.Queries q) =>
                                  some (.ok ⟨namespaces, contexts, q⟩)
                              | .ok (.Query q) =>
                                  some (.ok ⟨namespaces, contexts, [q]⟩)
                              | .ok plan =>
                                  some (.error (.Unsupported
                                    ("Unable to handle unsupported query plan: "
                                      ++ debugRenderValue plan)))

/-- `validator::ValidationError` (validator.rs lines 23-28). -/
inductive ValidationError where
  | ContextNotFound (names : List String)
  deriving Repr, DecidableEq

/-- A named context entry of the external `Kubeconfig`; validator.rs reads
only its `name` field. -/
structure NamedContext where
  name : String
  deriving Repr, DecidableEq

/-- The field of the external `Kubeconfig` that validator.rs reads. -/
structure Kubeconfig where
  contexts : List NamedContext
  deriving Repr, DecidableEq

/-- `validate_contexts` (validator.rs lines 30-43). -/
def validate_contexts (kubeconfig : Kubeconfig) (ctxs : List String) :
    Except ValidationError Unit :=
  let not_found := ctxs.filter (fun item => kubeconfig.contexts.all (fun s => s.name ≠ item))
  if not_found ≠ [] then
    .error (.ContextNotFound not_found)
  else
    .ok ()

/-- The operand pairings the `BinaryOp::plan` combination table accepts
(planner.rs lines 114-133): `Strings`/`String`, `Query`/`Query` and
`Queries`/`Query`; every other pairing falls to the `TypeMismatch` arm. -/
def combinable : Value → Value → Bool
  | .Strings _, .String _ => true
  | .Query _, .Query _ => true
  | .Queries _, .Query _ => true
  | _, _ => false

/-- The chain invariant on a clause list: the chain is non-empty, its head
carries no chaining operator, and every later clause carries one. -/
def goodChain : List Query → Prop
  | [] => False
  | q :: rest => q.key = none ∧ ∀ p ∈ rest, (p.key).isSome = true

/-- The chain invariant lifted to folded values: a lone clause has
`key = none`, a clause chain satisfies `goodChain`, and the string-valued
kinds are unconstrained. -/
def goodValue : Value → Prop
  | .Query q => q.key = none
  | .Queries qs => goodChain qs
  | _ => True

/-- The WHERE tree of shape `a = 'x' AND b = 'y' OR c = 'z'` (with
three-segment identifiers standing for `a`, `b`, `c`), as the external
grammar parses it: AND binds tighter than OR and equal-precedence chains
associate to the left. -/
def whereChainExample : Expr :=
  .BinaryOp
    (.BinaryOp
      (.BinaryOp (.CompoundIdentifier ["pod", "status", "phase"]) .Eq
        (.Value (.SingleQuotedString "x")))
      .And
      (.BinaryOp (.CompoundIdentifier ["deployment", "metadata", "name"]) .Eq
        (.Value (.SingleQuotedString "y"))))
    .Or
    (.BinaryOp (.CompoundIdentifier ["service", "spec", "type"]) .Eq
      (.Value (.SingleQuotedString "z")))

/-!  Theorems.  -/

/-- C1: folding a binary operation whose folded left operand is a
`StringList` (`Value.Strings`) and whose folded right operand is a
`StringScalar` (`Value.String`) builds, when the list has exactly three
segments, a clause with `key = none` (no chain operator), the three
segments in order, the node's operator as comparator, and the literal with
every underscore replaced by a hyphen; with any other segment count it
fails with the arity error. -/
theorem binaryOp_three_segment_clause (l r : Expr) (op : BinaryOperator)
    (a : List String) (b : String)
    (hl : l.plan = .ok (.Strings a)) (hr : r.plan = .ok (.String b)) :
    (∀ s1 s2 s3, a = [s1, s2, s3] →
      (Expr.BinaryOp l op r).plan =
        .ok (.Query { key := none, kind := s1, field1 := s2, field2 := s3,
                      eq := replaceChar b '_' '-', op := op })) ∧
    (a.length ≠ 3 → (Expr.BinaryOp l op r).plan = .error (.Unknown arityMsg)) := by
  constructor
  · rintro s1 s2 s3 rfl
    simp [Expr.plan, hl, hr, binaryOpQueryPlan]
  · intro hlen
    have harity : binaryOpQueryPlan op a b = .error (.Unknown arityMsg) := by
      match a, hlen with
      | [], _ => rfl
      | [_], _ => rfl
      | [_, _], _ => rfl
      | [_, _, _], hlen => exact absurd rfl hlen
      | _ :: _ :: _ :: _ :: _, _ => rfl
    simp [Expr.plan, hl, hr, harity]

/-- Witness for C1 at `pod.status.phase = 'my_app'` (three segments,
underscore in the literal) and `pod.status = 'x'` (two segments). -/
theorem binaryOp_three_segment_clause_witness :
    (Expr.BinaryOp (.CompoundIdentifier ["pod", "status", "phase"]) .Eq
        (.Value (.SingleQuotedString "my_app"))).plan =
      .ok (.Query { key := none, kind := "pod", field1 := "status", field2 := "phase",
                    eq := "my-app", op := .Eq }) ∧
    (Expr.BinaryOp (.CompoundIdentifier ["pod", "status"]) .Eq
        (.Value (.SingleQuotedString "x"))).plan = .error (.Unknown arityMsg) := by
  constructor
  · have h := binaryOp_three_segment_clause (.CompoundIdentifier ["pod", "status", "phase"])
      (.Value (.SingleQuotedString "my_app")) .Eq ["pod", "status", "phase"] "my_app" rfl rfl
    rw [h.1 "pod" "status" "phase" rfl]
    rfl
  · have h := binaryOp_three_segment_clause (.CompoundIdentifier ["pod", "status"])
      (.Value (.SingleQuotedString "x")) .Eq ["pod", "status"] "x" rfl rfl
    exact h.2 (by decide)

/-- C3 (evidence against): the translation pipeline aborts the process
instead of returning an error value.  An unparseable input makes
`parse_sql` unwrap the external parse error (a panic, modelled `none`), and
a planner failure — here the arity error produced for the two-segment
identifier of `SELECT a FROM c WHERE pod.status = 'x'` — is unwrapped
inside `parse_sql` rather than returned to the caller. -/
theorem parse_sql_aborts_on_failures :
    parse_sql (.error "syntax error") = none ∧
    (Expr.BinaryOp (.CompoundIdentifier ["pod", "status"]) .Eq
        (.Value (.SingleQuotedString "x"))).plan = .error (.Unknown arityMsg) ∧
    parse_sql (.ok [.Query (.Select
      { projection := [.UnnamedExpr "a"],
        from_ := [{ relation := .Table "c" none none [], joins := [] }],
        selection := some (.BinaryOp (.CompoundIdentifier ["pod", "status"]) .Eq
          (.Value (.SingleQuotedString "x"))) })]) = none :=
  ⟨rfl, rfl, rfl⟩

/-- C10: `parse_sql` pops and translates only the last statement the
external grammar produced; every earlier statement is ignored. -/
theorem parse_sql_uses_last_statement (stmts : List Statement) (s : Statement) :
    parse_sql (.ok (stmts ++ [s])) = parse_sql (.ok [s]) := by
  simp only [parse_sql, List.getLast?_concat, List.getLast?_singleton]

/-- C2: the fold preserves left-to-right source order.  Combining two lone
clauses starts a two-element chain whose second clause carries the
operator; combining a chain with a clause appends the clause, with the
operator, at the end; and the WHERE tree of shape
`a = 'x' AND b = 'y' OR c = 'z'` folds to a three-clause list whose chain
operators are `none`, `AND`, `OR` in source order. -/
theorem fold_preserves_chain_order (l r : Expr) (op : BinaryOperator) :
    (∀ q1 q2, l.plan = .ok (.Query q1) → r.plan = .ok (.Query q2) →
      (Expr.BinaryOp l op r).plan = .ok (.Queries [q1, { q2 with key := some op }])) ∧
    (∀ qs q2, l.plan = .ok (.Queries qs) → r.plan = .ok (.Query q2) →
      (Expr.BinaryOp l op r).plan = .ok (.Queries (qs ++ [{ q2 with key := some op }]))) ∧
    (∃ qs, whereChainExample.plan = .ok (.Queries qs) ∧ qs.length = 3 ∧
      qs.map Query.key = [none, some .And, some .Or] ∧
      qs.map Query.kind = ["pod", "deployment", "service"]) := by
  refine ⟨?_, ?_, ?_⟩
  · intro q1 q2 h1 h2
    simp [Expr.plan, h1, h2]
  · intro qs q2 h1 h2
    simp [Expr.plan, h1, h2]
  · exact ⟨[{ key := none, kind := "pod", field1 := "status", field2 := "phase",
              eq := "x", op := .Eq },
            { key := some .And, kind := "deployment", field1 := "metadata",
              field2 := "name", eq := "y", op := .Eq },
            { key := some .Or, kind := "service", field1 := "spec", field2 := "type",
              eq := "z", op := .Eq }], rfl, rfl, rfl, rfl⟩

/-- Witness for C2: the clause-with-clause and chain-with-clause rules
applied to concrete three-segment comparisons. -/
theorem fold_preserves_chain_order_witness :
    (Expr.BinaryOp
        (.BinaryOp (.CompoundIdentifier ["pod", "status", "phase"]) .Eq
          (.Value (.SingleQuotedString "x")))
        .And
        (.BinaryOp (.CompoundIdentifier ["deployment", "metadata", "name"]) .Eq
          (.Value (.SingleQuotedString "y")))).plan =
      .ok (.Queries
        [{ key := none, kind := "pod", field1 := "status", field2 := "phase",
           eq := "x", op := .Eq },
         { key := some .And, kind := "deployment", field1 := "metadata",
           field2 := "name", eq := "y", op := .Eq }]) ∧
    whereChainExample.plan =
      .ok (.Queries
        [{ key := none, kind := "pod", field1 := "status", field2 := "phase",
           eq := "x", op := .Eq },
         { key := some .And, kind := "deployment", field1 := "metadata",
           field2 := "name", eq := "y", op := .Eq },
         { key := some .Or, kind := "service", field1 := "spec", field2 := "type",
           eq := "z", op := .Eq }]) := by
  constructor
  · exact (fold_preserves_chain_order
      (.BinaryOp (.CompoundIdentifier ["pod", "status", "phase"]) .Eq
        (.Value (.SingleQuotedString "x")))
      (.BinaryOp (.CompoundIdentifier ["deployment", "metadata", "name"]) .Eq
        (.Value (.SingleQuotedString "y"))) .And).1
      { key := none, kind := "pod", field1 := "status", field2 := "phase",
        eq := "x", op := .Eq }
      { key := none, kind := "deployment", field1 := "metadata", field2 := "name",
        eq := "y", op := .Eq } rfl rfl
  · exact (fold_preserves_chain_order
      (.BinaryOp
        (.BinaryOp (.CompoundIdentifier ["pod", "status", "phase"]) .Eq
          (.Value (.SingleQuotedString "x")))
        .And
        (.BinaryOp (.CompoundIdentifier ["deployment", "metadata", "name"]) .Eq
          (.Value (.SingleQuotedString "y"))))
      (.BinaryOp (.CompoundIdentifier ["service", "spec", "type"]) .Eq
        (.Value (.SingleQuotedString "z"))) .Or).2.1
      [{ key := none, kind := "pod", field1 := "status", field2 := "phase",
         eq := "x", op := .Eq },
       { key := some .And, kind := "deployment", field1 := "metadata",
         field2 := "name", eq := "y", op := .Eq }]
      { key := none, kind := "service", field1 := "spec", field2 := "type",
        eq := "z", op := .Eq } rfl rfl

/-- Mapping and then mapping back is the identity on a list whose members
are pointwise restored. -/
theorem list_map_map_id {α : Type} (f g : α → α) :
    ∀ (l : List α), (∀ c ∈ l, g (f c) = c) → (l.map f).map g = l
  | [], _ => rfl
  | c :: cs, h => by
      simp only [List.map_cons, List.cons.injEq]
      exact ⟨h c (by simp), list_map_map_id f g cs (fun x hx => h x (by simp [hx]))⟩

/-- C4: the hyphen-to-underscore substitution applied to the raw query text
before grammar parsing, followed by the underscore-to-hyphen substitution
applied to produced namespaces, contexts and clause literals, is the
identity on every string made only of lowercase letters, digits and
hyphens. -/
theorem escape_round_trip (s : String)
    (h : ∀ c ∈ s.data, ('a' ≤ c ∧ c ≤ 'z') ∨ ('0' ≤ c ∧ c ≤ '9') ∨ c = '-') :
    replaceChar (replaceChar s '-' '_') '_' '-' = s := by
  obtain ⟨data⟩ := s
  show String.mk ((data.map fun c => if c = '-' then '_' else c).map
    fun c => if c = '_' then '-' else c) = String.mk data
  congr 1
  refine list_map_map_id _ _ data ?_
  intro c hc
  rcases h c hc with ⟨h1, h2⟩ | ⟨h1, h2⟩ | rfl
  · have e1 : c ≠ '-' := by rintro rfl; exact absurd h1 (by decide)
    have e2 : c ≠ '_' := by rintro rfl; exact absurd h1 (by decide)
    simp [e1, e2]
  · have e1 : c ≠ '-' := by rintro rfl; exact absurd h1 (by decide)
    have e2 : c ≠ '_' := by rintro rfl; exact absurd h2 (by decide)
    simp [e1, e2]
  · simp

/-- Witness for C4 at the context name `prod-cluster`. -/
theorem escape_round_trip_witness :
    (∀ c ∈ ("prod-cluster" : String).data,
      ('a' ≤ c ∧ c ≤ 'z') ∨ ('0' ≤ c ∧ c ≤ '9') ∨ c = '-') ∧
    replaceChar (replaceChar "prod-cluster" '-' '_') '_' '-' = "prod-cluster" :=
  ⟨by decide, escape_round_trip "prod-cluster" (by decide)⟩

/-- C7: the planner rejects everything outside its combination table with a
kind-specific error: a literal that is not a single- or double-quoted
string folds to an `Unsupported` error; an expression node that is not a
literal, compound identifier or binary operation folds to an `Unsupported`
error carrying the node's rendering; and a binary operation whose folded
operand pair is outside the three-row combination table folds to a
`TypeMismatch` error carrying both operands. -/
theorem planner_rejects_outside_table :
    (∀ v : AstValue, (∀ s, v ≠ .SingleQuotedString s) → (∀ s, v ≠ .DoubleQuotedString s) →
      planValue v = .error (.Unsupported "Value" v.render)) ∧
    (∀ rendered, (Expr.Other rendered).plan = .error (.Unsupported "Expr" rendered)) ∧
    (∀ l r op x y, l.plan = .ok x → r.plan = .ok y → combinable x y = false →
      (Expr.BinaryOp l op r).plan = .error (.TypeMismatch x y)) := by
  refine ⟨?_, ?_, ?_⟩
  · intro v h1 h2
    cases v with
    | SingleQuotedString s => exact absurd rfl (h1 s)
    | DoubleQuotedString s => exact absurd rfl (h2 s)
    | Number s => rfl
    | Boolean b => rfl
    | Null => rfl
  · intro rendered
    rfl
  · intro l r op x y hl hr hc
    cases x <;> cases y <;> simp_all [Expr.plan, combinable]

/-- Witness for C7 at a numeric literal, an unknown node, and the
`String`/`Strings` operand pair of `'v' = pod.status.phase`. -/
theorem planner_rejects_outside_table_witness :
    planValue (.Number "42") = .error (.Unsupported "Value" (AstValue.render (.Number "42"))) ∧
    (Expr.Other "NOT x").plan = .error (.Unsupported "Expr" "NOT x") ∧
    (Expr.BinaryOp (.Value (.SingleQuotedString "v")) .Eq
        (.CompoundIdentifier ["pod", "status", "phase"])).plan =
      .error (.TypeMismatch (.String "v") (.Strings ["pod", "status", "phase"])) := by
  refine ⟨?_, ?_, ?_⟩
  · exact planner_rejects_outside_table.1 (.Number "42")
      (fun s h => by cases h) (fun s h => by cases h)
  · exact planner_rejects_outside_table.2.1 "NOT x"
  · exact planner_rejects_outside_table.2.2 (.Value (.SingleQuotedString "v"))
      (.CompoundIdentifier ["pod", "status", "phase"]) .Eq
      (.String "v") (.Strings ["pod", "status", "phase"]) rfl rfl rfl

/-- A successful `BinaryOpQuery::plan` always yields a lone clause whose
chain operator is `none`. -/
theorem binaryOpQueryPlan_ok_key_none (op : BinaryOperator) (a : List String) (b : String)
    (v : Value) (h : binaryOpQueryPlan op a b = .ok v) :
    ∃ q, v = Value.Query q ∧ q.key = none := by
  match a, h with
  | [s1, s2, s3], h =>
      have hv : v = Value.Query { key := none, kind := s1, field1 := s2, field2 := s3,
                                  eq := replaceChar b '_' '-', op := op } := by
        simpa [binaryOpQueryPlan] using h.symm
      exact ⟨_, hv, rfl⟩
  | [], h => simp [binaryOpQueryPlan] at h
  | [_], h => simp [binaryOpQueryPlan] at h
  | [_, _], h => simp [binaryOpQueryPlan] at h
  | _ :: _ :: _ :: _ :: _, h => simp [binaryOpQueryPlan] at h

/-- Every value the fold returns satisfies the chain invariant: a lone
clause has no chain operator; a chain is non-empty, its head has none and
every later clause has one. -/
theorem plan_goodValue : ∀ (e : Expr) (v : Value), e.plan = .ok v → goodValue v := by
  intro e
  induction e with
  | Value av =>
      intro w h
      cases av <;> simp only [Expr.plan, planValue] at h <;> first
        | (injection h with h; subst h; trivial)
        | cases h
  | CompoundIdentifier ids =>
      intro w h
      injection h with h
      subst h
      trivial
  | Other rendered =>
      intro w h
      cases h
  | BinaryOp l op r ihl ihr =>
      intro w h
      simp only [Expr.plan] at h
      rcases hl : l.plan with el | x <;> rw [hl] at h
      · cases h
      · rcases hr : r.plan with er | y <;> rw [hr] at h
        · cases h
        · have gx := ihl x hl
          have gy := ihr y hr
          cases x with
          | Strings a =>
              cases y <;> try { cases h }
              case String b =>
                obtain ⟨q, rfl, hq⟩ := binaryOpQueryPlan_ok_key_none op a b w h
                exact hq
          | String sx =>
              cases y <;> cases h
          | Query q1 =>
              cases y <;> try { cases h }
              case Query q2 =>
                injection h with h
                subst h
                exact ⟨gx, by simp⟩
          | Queries qs =>
              cases y <;> try { cases h }
              case Query q2 =>
                injection h with h
                subst h
                cases qs with
                | nil => exact gx.elim
                | cons q rest =>
                    refine ⟨gx.1, ?_⟩
                    intro p hp
                    rcases List.mem_append.mp hp with hp | hp
                    · exact gx.2 p hp
                    · rcases List.mem_singleton.mp hp with rfl
                      simp

/-- C8: in every successful planner result, a clause's chain operator is
`none` iff the clause heads its chain: a lone clause has `key = none`, and
a returned chain is non-empty with `key = none` on its first clause and
`key = some op` on every later one. -/
theorem fold_chainOp_invariant (e : Expr) :
    (∀ q, e.plan = .ok (.Query q) → q.key = none) ∧
    (∀ qs, e.plan = .ok (.Queries qs) →
      ∃ q rest, qs = q :: rest ∧ q.key = none ∧ ∀ p ∈ rest, (p.key).isSome = true) := by
  constructor
  · intro q h
    exact plan_goodValue e _ h
  · intro qs h
    have g := plan_goodValue e _ h
    cases qs with
    | nil => exact g.elim
    | cons q rest => exact ⟨q, rest, rfl, g.1, g.2⟩

/-- Witness for C8 at a lone comparison and at the three-clause chain. -/
theorem fold_chainOp_invariant_witness :
    (∀ q, (Expr.BinaryOp (.CompoundIdentifier ["pod", "status", "phase"]) .Eq
        (.Value (.SingleQuotedString "x"))).plan = .ok (.Query q) → q.key = none) ∧
    (∃ q rest,
      ([{ key := none, kind := "pod", field1 := "status", field2 := "phase",
          eq := "x", op := BinaryOperator.Eq },
        { key := some .And, kind := "deployment", field1 := "metadata",
          field2 := "name", eq := "y", op := BinaryOperator.Eq },
        { key := some .Or, kind := "service", field1 := "spec", field2 := "type",
          eq := "z", op := BinaryOperator.Eq }] : List Query) = q :: rest ∧
        q.key = none ∧ ∀ p ∈ rest, (p.key).isSome = true) :=
  ⟨(fold_chainOp_invariant (.BinaryOp (.CompoundIdentifier ["pod", "status", "phase"]) .Eq
      (.Value (.SingleQuotedString "x")))).1,
   (fold_chainOp_invariant whereChainExample).2 _ rfl⟩

/-- The branch structure of `validate_contexts` as a single conditional on
the filtered list of unknown names. -/
theorem validate_contexts_eq (kubeconfig : Kubeconfig) (ctxs : List String) :
    validate_contexts kubeconfig ctxs =
      if ctxs.filter (fun item => kubeconfig.contexts.all (fun s => s.name ≠ item)) = []
      then .ok ()
      else .error (.ContextNotFound
        (ctxs.filter (fun item => kubeconfig.contexts.all (fun s => s.name ≠ item)))) := by
  simp only [validate_contexts]
  by_cases hf :
      ctxs.filter (fun item => kubeconfig.contexts.all (fun s => s.name ≠ item)) = []
  · rw [if_neg (fun hC => hC hf), if_pos hf]
  · rw [if_pos hf, if_neg hf]

/-- C9: `validate_contexts` succeeds exactly when every requested context
name occurs among the kubeconfig's context names; otherwise the
`ContextNotFound` error carries exactly the absent requested names — an
order-preserving subsequence of the request containing a name iff it was
requested and is unknown. -/
theorem validate_contexts_exact (kubeconfig : Kubeconfig) (ctxs : List String) :
    (validate_contexts kubeconfig ctxs = .ok () ↔
      ∀ c ∈ ctxs, ∃ nc ∈ kubeconfig.contexts, nc.name = c) ∧
    (∀ missing, validate_contexts kubeconfig ctxs = .error (.ContextNotFound missing) →
      missing.Sublist ctxs ∧
        ∀ c, c ∈ missing ↔ (c ∈ ctxs ∧ ∀ nc ∈ kubeconfig.contexts, nc.name ≠ c)) := by
  have hmem : ∀ c,
      c ∈ ctxs.filter (fun item => kubeconfig.contexts.all (fun s => s.name ≠ item)) ↔
        (c ∈ ctxs ∧ ∀ nc ∈ kubeconfig.contexts, nc.name ≠ c) := by
    intro c
    simp [List.mem_filter, List.all_eq_true]
  constructor
  · rw [validate_contexts_eq]
    by_cases hf :
        ctxs.filter (fun item => kubeconfig.contexts.all (fun s => s.name ≠ item)) = []
    · rw [if_pos hf]
      simp only [iff_true_intro rfl, true_iff]
      intro c hc
      by_contra hne
      push_neg at hne
      have : c ∈ ctxs.filter (fun item => kubeconfig.contexts.all (fun s => s.name ≠ item)) :=
        (hmem c).mpr ⟨hc, fun nc hnc h => hne nc hnc h⟩
      rw [hf] at this
      cases this
    · rw [if_neg hf]
      constructor
      · intro h
        cases h
      · intro hall
        obtain ⟨c, hc⟩ := List.exists_mem_of_ne_nil _ hf
        obtain ⟨hcc, habs⟩ := (hmem c).mp hc
        obtain ⟨nc, hnc, hname⟩ := hall c hcc
        exact absurd hname (habs nc hnc)
  · intro missing h
    rw [validate_contexts_eq] at h
    by_cases hf :
        ctxs.filter (fun item => kubeconfig.contexts.all (fun s => s.name ≠ item)) = []
    · rw [if_pos hf] at h
      cases h
    · rw [if_neg hf] at h
      injection h with h
      injection h with h
      subst h
      exact ⟨List.filter_sublist _, hmem⟩

/-- Witness for C9: contexts `a`, `b` known; request `b, a` succeeds, and
the request `b, c, a, d` fails carrying exactly `c, d` in request order. -/
theorem validate_contexts_exact_witness :
    validate_contexts ⟨[⟨"a"⟩, ⟨"b"⟩]⟩ ["b", "a"] = .ok () ∧
    (List.Sublist ["c", "d"] ["b", "c", "a", "d"] ∧
      ∀ c, c ∈ (["c", "d"] : List String) ↔
        (c ∈ (["b", "c", "a", "d"] : List String) ∧
          ∀ nc ∈ ({ contexts := [⟨"a"⟩, ⟨"b"⟩] } : Kubeconfig).contexts, nc.name ≠ c)) := by
  constructor
  · exact (validate_contexts_exact ⟨[⟨"a"⟩, ⟨"b"⟩]⟩ ["b", "a"]).1.mpr (by decide)
  · exact (validate_contexts_exact ⟨[⟨"a"⟩, ⟨"b"⟩]⟩ ["b", "c", "a", "d"]).2
      ["c", "d"] rfl

/-- Every error the projection loop produces is an `Unsupported` error. -/
theorem selectNamespaces_error_unsupported :
    ∀ (items : List SelectItem) (e : ParserError),
      selectNamespaces items = .error e → ∃ m, e = ParserError.Unsupported m := by
  intro items
  induction items with
  | nil =>
      intro e h
      cases h
  | cons p rest ih =>
      intro e h
      cases p with
      | UnnamedExpr o =>
          simp only [selectNamespaces] at h
          rcases hres : selectNamespaces rest with e' | ns <;> rw [hres] at h
          · injection h with h
            exact h ▸ ih e' hres
          · cases h
      | ExprWithAlias =>
          injection h with h
          exact ⟨_, h.symm⟩
      | QualifiedWildcard =>
          injection h with h
          exact ⟨_, h.symm⟩
      | Wildcard =>
          injection h with h
          exact ⟨_, h.symm⟩

/-- Every error the FROM loop produces is an `Unsupported` error. -/
theorem fromContexts_error_unsupported :
    ∀ (tables : List TableWithJoins) (e : ParserError),
      fromContexts tables = .error e → ∃ m, e = ParserError.Unsupported m := by
  intro tables
  induction tables with
  | nil =>
      intro e h
      cases h
  | cons f rest ih =>
      intro e h
      obtain ⟨rel, joins⟩ := f
      simp only [fromContexts] at h
      by_cases hj : joins ≠ []
      · rw [if_pos hj] at h
        injection h with h
        exact ⟨_, h.symm⟩
      · rw [if_neg hj] at h
        cases rel with
        | Table name alias_ args whints =>
            cases alias_ with
            | some u =>
                simp only [Option.isSome, if_true] at h
                injection h with h
                exact ⟨_, h.symm⟩
            | none =>
                simp only [Option.isSome] at h
                cases args with
                | some a =>
                    cases a with
                    | cons u us =>
                        simp only [] at h
                        injection h with h
                        exact ⟨_, h.symm⟩
                    | nil =>
                        simp only [] at h
                        by_cases hh : whints ≠ []
                        · rw [if_pos hh] at h
                          injection h with h
                          exact ⟨_, h.symm⟩
                        · rw [if_neg hh] at h
                          rcases hres : fromContexts rest with e' | cs <;> rw [hres] at h
                          · injection h with h
                            exact h ▸ ih e' hres
                          · cases h
                | none =>
                    simp only [] at h
                    by_cases hh : whints ≠ []
                    · rw [if_pos hh] at h
                      injection h with h
                      exact ⟨_, h.symm⟩
                    · rw [if_neg hh] at h
                      rcases hres : fromContexts rest with e' | cs <;> rw [hres] at h
                      · injection h with h
                        exact h ▸ ih e' hres
                      · cases h
        | Derived =>
            injection h with h
            exact ⟨_, h.symm⟩
        | TableFunction =>
            injection h with h
            exact ⟨_, h.symm⟩
        | NestedJoin =>
            injection h with h
            exact ⟨_, h.symm⟩
        | UNNEST =>
            injection h with h
            exact ⟨_, h.symm⟩

/-- C5: extraction fails with `SelectProjectionsRequired` exactly when the
projection list is empty; aliased, qualified-wildcard and wildcard
projections, joins, table aliases, call-style table arguments and table
hints each fail with their own `Unsupported` message, the seven messages
pairwise distinct; an empty table list (with valid projections) fails with
`SelectFromRequired`; and accepted projection items and table names are
rendered with the underscore-to-hyphen rewrite. -/
theorem extraction_guard :
    (∀ s : Select, parse_sql (.ok [.Query (.Select s)]) =
        some (.error .SelectProjectionsRequired) ↔ s.projection = []) ∧
    (∀ rest, selectNamespaces (.ExprWithAlias :: rest) =
      .error (.Unsupported "SELECT statement does not support ExprWithAlias selector!")) ∧
    (∀ rest, selectNamespaces (.QualifiedWildcard :: rest) =
      .error (.Unsupported "SELECT statement does not support QualifiedWildcard selector!")) ∧
    (∀ rest, selectNamespaces (.Wildcard :: rest) =
      .error (.Unsupported "SELECT statement does not support Wildcard selector!")) ∧
    (∀ f rest, f.joins ≠ [] → fromContexts (f :: rest) =
      .error (.Unsupported "FROM statement does not support Join!")) ∧
    (∀ name args whints rest,
      fromContexts (⟨.Table name (some ()) args whints, []⟩ :: rest) =
        .error (.Unsupported "FROM statement does not support Table aliases!")) ∧
    (∀ name us whints rest,
      fromContexts (⟨.Table name none (some (() :: us)) whints, []⟩ :: rest) =
        .error (.Unsupported "FROM statement does not support Table ARGS!")) ∧
    (∀ name us rest,
      fromContexts (⟨.Table name none none (() :: us), []⟩ :: rest) =
        .error (.Unsupported "FROM statement does not support Table HINT!")) ∧
    List.Pairwise (· ≠ ·)
      ["SELECT statement does not support ExprWithAlias selector!",
       "SELECT statement does not support QualifiedWildcard selector!",
       "SELECT statement does not support Wildcard selector!",
       "FROM statement does not support Join!",
       "FROM statement does not support Table aliases!",
       "FROM statement does not support Table ARGS!",
       "FROM statement does not support Table HINT!"] ∧
    (∀ s : Select, ∀ ns, s.projection ≠ [] → selectNamespaces s.projection = .ok ns →
      s.from_ = [] →
      parse_sql (.ok [.Query (.Select s)]) = some (.error .SelectFromRequired)) ∧
    (∀ ss : List String, selectNamespaces (ss.map SelectItem.UnnamedExpr) =
      .ok (ss.map (fun o => replaceChar o '_' '-'))) ∧
    (∀ ts : List String,
      fromContexts (ts.map (fun n => ⟨.Table n none none [], []⟩)) =
        .ok (ts.map (fun n => replaceChar n '_' '-'))) := by
  refine ⟨?_, fun rest => rfl, fun rest => rfl, fun rest => rfl, ?_,
    fun name args whints rest => rfl, fun name us whints rest => rfl,
    fun name us rest => rfl, by decide, ?_, ?_, ?_⟩
  · intro s
    constructor
    · intro h
      by_contra hp
      simp only [parse_sql, List.getLast?_singleton] at h
      rw [if_neg hp] at h
      rcases hsn : selectNamespaces s.projection with e | ns <;> simp only [hsn] at h
      · obtain ⟨m, rfl⟩ := selectNamespaces_error_unsupported _ _ hsn
        simp at h
      · by_cases hf : s.from_ = []
        · rw [if_pos hf] at h
          simp at h
        · rw [if_neg hf] at h
          rcases hfc : fromContexts s.from_ with e | cs <;> simp only [hfc] at h
          · obtain ⟨m, rfl⟩ := fromContexts_error_unsupported _ _ hfc
            simp at h
          · rcases hsel : s.selection with _ | w <;> simp only [hsel] at h
            · simp at h
            · rcases hw : w.plan with e | v <;> simp only [hw] at h
              · simp at h
              · cases v <;> simp at h
    · intro hp
      simp [parse_sql, List.getLast?_singleton, hp]
  · intro f rest hj
    simp only [fromContexts]
    rw [if_pos hj]
  · intro s ns hp hsn hf
    simp only [parse_sql, List.getLast?_singleton]
    rw [if_neg hp]
    simp only [hsn]
    rw [if_pos hf]
  · intro ss
    induction ss with
    | nil => rfl
    | cons o os ih => simp [selectNamespaces, ih]
  · intro ts
    induction ts with
    | nil => rfl
    | cons t ts ih => simp [fromContexts, ih]

/-- Witness for C5: the parts with hypotheses applied at `SELECT` with an
empty projection list, at a FROM item carrying a join, and at
`SELECT a FROM` with an empty table list. -/
theorem extraction_guard_witness :
    parse_sql (.ok [.Query (.Select { projection := [], from_ := [], selection := none })]) =
      some (.error .SelectProjectionsRequired) ∧
    fromContexts [⟨.Table "c" none none [], [()]⟩] =
      .error (.Unsupported "FROM statement does not support Join!") ∧
    parse_sql (.ok [.Query (.Select
      { projection := [.UnnamedExpr "a"], from_ := [], selection := none })]) =
      some (.error .SelectFromRequired) := by
  refine ⟨?_, ?_, ?_⟩
  · exact (extraction_guard.1 { projection := [], from_ := [], selection := none }).mpr rfl
  · exact extraction_guard.2.2.2.2.1 ⟨.Table "c" none none [], [()]⟩ [] (by decide)
  · exact extraction_guard.2.2.2.2.2.2.2.2.2.1
      { projection := [.UnnamedExpr "a"], from_ := [], selection := none }
      ["a"] (by decide) rfl rfl

/-- No "Unable to handle unsupported query plan" message equals the
missing-WHERE message: their first characters differ. -/
theorem unable_prefix_ne (x : String) :
    "Unable to handle unsupported query plan: " ++ x ≠
      "WHERE statement is required in order to set --field-selector!" := by
  intro h
  have hd := congrArg String.data h
  rw [String.data_append] at hd
  have h1 : ("Unable to handle unsupported query plan: ".data ++ x.data).head? = some 'U' := rfl
  rw [hd] at h1
  exact absurd h1 (by decide)

/-- C6 counterexample: for `SELECT a FROM c` with no WHERE clause the code
fails with an `Unsupported` error, but the message it carries is not the
literal "WHERE required". -/
theorem where_required_message_counterexample :
    parse_sql (.ok [.Query (.Select
      { projection := [.UnnamedExpr "a"],
        from_ := [{ relation := .Table "c" none none [], joins := [] }],
        selection := none })]) =
      some (.error (.Unsupported
        "WHERE statement is required in order to set --field-selector!")) ∧
    "WHERE statement is required in order to set --field-selector!" ≠ "WHERE required" :=
  ⟨rfl, by decide⟩

/-- C6 (amended): with valid projections and tables, extraction fails with
an `Unsupported` error carrying the message "WHERE statement is required in
order to set --field-selector!" exactly when the statement has no WHERE
clause; when one is present, a `Query` fold result is wrapped as a
one-element clause list, a `Queries` result is taken as the clause list,
and a fold result of any other kind fails with an `Unsupported` error. -/
theorem where_clause_handling (s : Select) (ns cs : List String)
    (hp : s.projection ≠ []) (hsn : selectNamespaces s.projection = .ok ns)
    (hf : s.from_ ≠ []) (hfc : fromContexts s.from_ = .ok cs) :
    (parse_sql (.ok [.Query (.Select s)]) =
        some (.error (.Unsupported
          "WHERE statement is required in order to set --field-selector!")) ↔
      s.selection = none) ∧
    (∀ w q, s.selection = some w → w.plan = .ok (.Query q) →
      parse_sql (.ok [.Query (.Select s)]) = some (.ok ⟨ns, cs, [q]⟩)) ∧
    (∀ w qs, s.selection = some w → w.plan = .ok (.Queries qs) →
      parse_sql (.ok [.Query (.Select s)]) = some (.ok ⟨ns, cs, qs⟩)) ∧
    (∀ w a, s.selection = some w → w.plan = .ok (.Strings a) →
      parse_sql (.ok [.Query (.Select s)]) = some (.error (.Unsupported
        ("Unable to handle unsupported query plan: " ++ debugRenderValue (.Strings a))))) ∧
    (∀ w b, s.selection = some w → w.plan = .ok (.String b) →
      parse_sql (.ok [.Query (.Select s)]) = some (.error (.Unsupported
        ("Unable to handle unsupported query plan: " ++ debugRenderValue (.String b))))) := by
  refine ⟨⟨?_, ?_⟩, ?_, ?_, ?_, ?_⟩
  · intro h
    rcases hsel : s.selection with _ | w
    · rfl
    · exfalso
      simp only [parse_sql, List.getLast?_singleton] at h
      rw [if_neg hp] at h
      simp only [hsn] at h
      rw [if_neg hf] at h
      simp only [hfc, hsel] at h
      rcases hw : w.plan with e | v <;> simp only [hw] at h
      · simp at h
      · cases v <;> simp at h <;> exact unable_prefix_ne _ h
  · intro hsel
    simp only [parse_sql, List.getLast?_singleton]
    rw [if_neg hp]
    simp only [hsn]
    rw [if_neg hf]
    simp only [hfc, hsel]
  · intro w q hsel hw
    simp only [parse_sql, List.getLast?_singleton]
    rw [if_neg hp]
    simp only [hsn]
    rw [if_neg hf]
    simp only [hfc, hsel, hw]
  · intro w qs hsel hw
    simp only [parse_sql, List.getLast?_singleton]
    rw [if_neg hp]
    simp only [hsn]
    rw [if_neg hf]
    simp only [hfc, hsel, hw]
  · intro w a hsel hw
    simp only [parse_sql, List.getLast?_singleton]
    rw [if_neg hp]
    simp only [hsn]
    rw [if_neg hf]
    simp only [hfc, hsel, hw]
  · intro w b hsel hw
    simp only [parse_sql, List.getLast?_singleton]
    rw [if_neg hp]
    simp only [hsn]
    rw [if_neg hf]
    simp only [hfc, hsel, hw]

/-- Witness for C6: `SELECT a FROM c` with no WHERE clause, with a single
comparison, and with a bare compound identifier as the WHERE expression. -/
theorem where_clause_handling_witness :
    parse_sql (.ok [.Query (.Select
      { projection := [.UnnamedExpr "a"],
        from_ := [{ relation := .Table "c" none none [], joins := [] }],
        selection := none })]) =
      some (.error (.Unsupported
        "WHERE statement is required in order to set --field-selector!")) ∧
    parse_sql (.ok [.Query (.Select
      { projection := [.UnnamedExpr "a"],
        from_ := [{ relation := .Table "c" none none [], joins := [] }],
        selection := some (.BinaryOp (.CompoundIdentifier ["pod", "status", "phase"]) .Eq
          (.Value (.SingleQuotedString "Running"))) })]) =
      some (.ok ⟨["a"], ["c"],
        [{ key := none, kind := "pod", field1 := "status", field2 := "phase",
           eq := "Running", op := .Eq }]⟩) ∧
    parse_sql (.ok [.Query (.Select
      { projection := [.UnnamedExpr "a"],
        from_ := [{ relation := .Table "c" none none [], joins := [] }],
        selection := some (.CompoundIdentifier ["pod", "status", "phase"]) })]) =
      some (.error (.Unsupported
        ("Unable to handle unsupported query plan: "
          ++ debugRenderValue (.Strings ["pod", "status", "phase"])))) := by
  refine ⟨?_, ?_, ?_⟩
  · exact (where_clause_handling
      { projection := [.UnnamedExpr "a"],
        from_ := [{ relation := .Table "c" none none [], joins := [] }],
        selection := none } ["a"] ["c"] (by decide) rfl (by decide) rfl).1.mpr rfl
  · exact (where_clause_handling
      { projection := [.UnnamedExpr "a"],
        from_ := [{ relation := .Table "c" none none [], joins := [] }],
        selection := some (.BinaryOp (.CompoundIdentifier ["pod", "status", "phase"]) .Eq
          (.Value (.SingleQuotedString "Running"))) } ["a"] ["c"]
      (by decide) rfl (by decide) rfl).2.1 _ _ rfl rfl
  · exact (where_clause_handling
      { projection := [.UnnamedExpr "a"],
        from_ := [{ relation := .Table "c" none none [], joins := [] }],
        selection := some (.CompoundIdentifier ["pod", "status", "phase"]) } ["a"] ["c"]
      (by decide) rfl (by decide) rfl).2.2.2.1 _ _ rfl rfl

end Kubesql
